import Mathlib

/-!
Shallow embedding of the ppl-peoplesay-ai query pipeline.

The repository translates a natural-language question into a SQL query via a
generative-model oracle (`llm_inference.generate_sql_from_query`), executes it
against a SQLite store (`db_handler.execute_sql_query`), and asks the oracle to
summarize the retrieved rows (`llm_inference.generate_summary_from_data`); the
orchestration lives in `core_logic.process_query`.  One-time ingestion from the
source spreadsheet is `database_init.initialize_database` and
`preprocess/preprocess_csv_to_sql.py`.

External effects are passed as explicit parameters: the network behaviour of the
generative oracle and the values of `config.py` are collected in `GenAiEnv`, and
the SQLite connection is a function from query text to a result frame or a
raised error.  Machine data is modelled with `String`, `Nat`, `Option` and
`Except`; a pandas `NaN` cell is `Option.none`.
-/

namespace PeopleSay

/-- Whitespace characters removed by Python `str.strip()` and matched by the
regex class `\s` (ASCII range). -/
def isPySpace (c : Char) : Bool :=
  c == ' ' || c == '\t' || c == '\n' || c == '\r' || c == '\x0b' || c == '\x0c'

/-- Python `str.strip()`: drop leading and trailing whitespace. -/
def pyStrip (s : String) : String :=
  ⟨((s.toList.dropWhile isPySpace).reverse.dropWhile isPySpace).reverse⟩

/-- Substring containment on character lists: does `needle` occur contiguously
in `hay`? -/
def listInfix (needle : List Char) : List Char → Bool
  | [] => needle.isEmpty
  | c :: rest => needle.isPrefixOf (c :: rest) || listInfix needle rest

/-- Python `needle in hay` on strings: substring containment. -/
def pyInStr (needle hay : String) : Bool :=
  listInfix needle.toList hay.toList

/-- Python `str.upper()` (the source only ever uppercases ASCII query text). -/
def pyUpper (s : String) : String :=
  ⟨s.toList.map Char.toUpper⟩

/-- Python `str.split(sep)` for a one-character separator, on character lists:
split at every occurrence, keeping empty pieces (so `""` yields `[""]`). -/
def splitOnChar (sep : Char) : List Char → List (List Char)
  | [] => [[]]
  | c :: rest =>
    let r := splitOnChar sep rest
    if c == sep then [] :: r
    else
      match r with
      | [] => [[c]]
      | h :: t => (c :: h) :: t

/-- Python `str.split(sep)` for a one-character separator. -/
def pySplit (s : String) (sep : Char) : List String :=
  (splitOnChar sep s.toList).map (fun cs => ⟨cs⟩)

/-- Helper for `pyReplace`: replace every non-overlapping occurrence of `pat`
(non-empty in all uses) by `sub`, scanning left to right; the fuel argument is
the length of the scanned list, which bounds the recursion. -/
def replaceAux (pat sub : List Char) : Nat → List Char → List Char
  | _, [] => []
  | 0, cs => cs
  | Nat.succ n, c :: cs =>
    if pat.isPrefixOf (c :: cs) then
      sub ++ replaceAux pat sub n ((c :: cs).drop pat.length)
    else
      c :: replaceAux pat sub n cs

/-- Python `str.replace(pat, sub)` for a non-empty pattern. -/
def pyReplace (s pat sub : String) : String :=
  ⟨replaceAux pat.toList sub.toList s.toList.length s.toList⟩

/-- Python `str(list_of_strings)` as used by the f-string that reports missing
columns: single-quoted items, comma-space separated, in square brackets. -/
def pyReprStrList (l : List String) : String :=
  "[" ++ String.intercalate ", " (l.map (fun s => "\x27" ++ s ++ "\x27")) ++ "]"

/-- Python truthiness of an optional string: `None` and `""` are falsy. -/
def strTruthy (o : Option String) : Bool :=
  !((o.getD "") == "")

/-- Python `a or b` where `a` is an optional string and `b` a string:
returns `b` when `a` is falsy. -/
def pyOrStr (a : Option String) (b : String) : String :=
  if strTruthy a then a.getD "" else b

/-- A result row, modelling a pandas row over named columns: an association list
from column name to cell value. -/
abbrev Row := List (String × String)

/-- Pandas direct item access `row[k]`.  For a frame that passed the
required-column check every row carries the key, so the `""` default is never
exercised on the inputs the source feeds it. -/
def Row.item (r : Row) (k : String) : String :=
  (r.lookup k).getD ""

/-- Pandas `row.get(k, d)`: lookup with an explicit default. -/
def Row.getDefault (r : Row) (k d : String) : String :=
  (r.lookup k).getD d

/-- Pandas `row.to_dict()`: the row model already is its dictionary. -/
def Row.to_dict (r : Row) : Row := r

/-- A pandas `DataFrame`: the column names plus the list of rows. -/
structure DataFrame where
  cols : List String
  rows : List Row
deriving DecidableEq

/-- The frame `pd.DataFrame()` returned on every Executor failure path. -/
def DataFrame.emptyDf : DataFrame := ⟨[], []⟩

/-- Pandas `df.empty`: the frame has no rows. -/
def DataFrame.isEmptyDf (df : DataFrame) : Bool := df.rows.isEmpty

/-- The external world of `llm_inference.py`: the network behaviour of the
generative oracle together with the constants of `config.py` and the prompt
templates of `prompts.py`.  The templates are opaque string constants that are
only ever rendered and fed to the oracle, so they are carried as functions from
their format arguments to the rendered prompt. -/
structure GenAiEnv where
  /-- Outcome of `verify_google_api_key` (the list-models probe) for a key. -/
  verifyKey : String → Bool
  /-- The value of `config.GOOGLE_API_KEY` (unset is `none`). -/
  googleApiKey : Option String
  /-- The value of `config.SQL_MODEL_NAME`. -/
  sqlModelName : String
  /-- The value of `config.SUMMARY_MODEL_NAME`. -/
  summaryModelName : String
  /-- Behaviour of `model.generate_content`: model name and prompt to the
  response text (`Except.error` models a raised exception; `Except.ok` carries
  the response text, possibly empty). -/
  generate : String → String → Except String String
  /-- Rendering of `prompts.SQL_GENERATION_PROMPT_TEMPLATE` at a user query. -/
  sqlPromptTemplate : String → String
  /-- The table `prompts.SUMMARY_TEMPLATES`: analysis-mode key to template;
  rendering a template takes the user query and the formatted data context. -/
  summaryTemplates : List (String × (String → String → String))
  /-- The template `prompts.DEFAULT_SUMMARY_TEMPLATE`. -/
  defaultSummaryTemplate : String → String → String

/-- Embeds `llm_inference.configure_genai`: take the provided key or fall back
to `config.GOOGLE_API_KEY` (Python `or`), fail on a falsy key, otherwise verify
the key with the list-models probe. -/
def configure_genai (env : GenAiEnv) (apiKey : Option String) : Bool :=
  let keyToUse := if strTruthy apiKey then apiKey else env.googleApiKey
  if !(strTruthy keyToUse) then false
  else env.verifyKey (keyToUse.getD "")

/-- Embeds the regex substitution that removes a leading case-insensitive
code fence (pattern: caret, three backticks, the letters sql, then star of
whitespace) from the oracle text. -/
def stripLeadingSqlFence (s : String) : String :=
  let cs := s.toList
  if (cs.take 6).map Char.toLower == "```sql".toList then
    ⟨(cs.drop 6).dropWhile isPySpace⟩
  else s

/-- Embeds the regex substitution that removes a trailing code fence (pattern:
star of whitespace, three backticks, dollar) from the oracle text. -/
def stripTrailingFence (s : String) : String :=
  let rs := s.toList.reverse
  if rs.take 3 == "```".toList then
    ⟨((rs.drop 3).dropWhile isPySpace).reverse⟩
  else s

/-- The response post-processing of `generate_sql_from_query` (llm_inference.py
lines 110 to 115): strip, remove the leading and trailing code fences, strip
again. -/
def postProcessSql (t : String) : String :=
  pyStrip (stripTrailingFence (stripLeadingSqlFence (pyStrip t)))

/-- Embeds `llm_inference.generate_sql_from_query`.  Returns `none` when no API
key is supplied, when configuration fails, when the user query is empty, when
the oracle raises or answers with empty text, and when the post-processed text
fails the case-insensitive SELECT substring gate; otherwise returns the
post-processed query text. -/
def generate_sql_from_query (env : GenAiEnv) (user_query : String)
    (apiKey : Option String) (modelName : Option String) : Option String :=
  if !(strTruthy apiKey) then none
  else if !(configure_genai env apiKey) then none
  else if user_query == "" then none
  else
    match env.generate (pyOrStr modelName env.sqlModelName)
        (env.sqlPromptTemplate user_query) with
    | Except.error _ => none
    | Except.ok t =>
      if t == "" then none
      else
        let sql_query := postProcessSql t
        if pyInStr "SELECT" (pyUpper sql_query) then some sql_query else none

/-- The column names `generate_summary_from_data` requires of the retrieved
frame. -/
def required_columns : List String :=
  ["data_unit", "data_unit_title", "participant_name"]

/-- The per-row context block rendered by `generate_summary_from_data`
(llm_inference.py lines 182 to 218): source title, participant, metadata block
with placeholder defaults, and the excerpt text. -/
def formatRowBlock (row : Row) : String :=
  let source_id := Row.item row "data_unit_title"
  let participant := Row.item row "participant_name"
  let excerpt := Row.item row "data_unit"
  let age := Row.getDefault row "age" "N/A"
  let gender := Row.getDefault row "gender" "N/A"
  let race_ethnicity := Row.getDefault row "participant_race_ethnicity" "N/A"
  let location := Row.getDefault row "location_type" "N/A"
  let state := Row.getDefault row "state" "N/A"
  let income := Row.getDefault row "income_range_fpl" "N/A"
  let insurance := Row.getDefault row "participant_insurance" "N/A"
  let language := Row.getDefault row "language" "N/A"
  let participant_type := Row.getDefault row "participant_type" "N/A"
  let metadata_str :=
    "Participant Type: " ++ participant_type ++ "\n" ++
    "Age: " ++ age ++ "\n" ++
    "Gender: " ++ gender ++ "\n" ++
    "Race/Ethnicity: " ++ race_ethnicity ++ "\n" ++
    "Language: " ++ language ++ "\n" ++
    "Location: " ++ location ++ " (" ++ state ++ ")\n" ++
    "Income (FPL): " ++ income ++ "\n" ++
    "Insurance: " ++ insurance
  "Source ID: [" ++ source_id ++ "]\n" ++
  "Participant: " ++ participant ++ "\n" ++
  "Metadata:\n" ++ metadata_str ++ "\n" ++
  "Excerpt: " ++ excerpt ++ "\n"

/-- Embeds `llm_inference.generate_summary_from_data`.  The first component is
the summary text or a status or error message; the second is the grounding
list (`none` models Python `None`, `some []` the literal empty list). -/
def generate_summary_from_data (env : GenAiEnv) (user_query : String)
    (retrieved_data_df : DataFrame) (template_key : String)
    (apiKey : Option String) (modelName : Option String) :
    String × Option (List Row) :=
  if !(strTruthy apiKey) then
    ("API key error: Please provide a valid API key.", none)
  else if !(configure_genai env apiKey) then
    ("API key error: Failed to authenticate with the provided key.", none)
  else if retrieved_data_df.isEmptyDf then
    ("No relevant data found to summarize.", some [])
  else if !(required_columns.all (fun c => retrieved_data_df.cols.contains c)) then
    let missing := required_columns.filter
      (fun c => !(retrieved_data_df.cols.contains c))
    ("Internal Error: Data processing failed (missing columns: "
      ++ pyReprStrList missing ++ ").", none)
  else
    let data_context_parts := retrieved_data_df.rows.map formatRowBlock
    let sources_list := retrieved_data_df.rows.map Row.to_dict
    if data_context_parts.isEmpty then
      ("Could not prepare data for summarization.", none)
    else
      let data_context_string := String.intercalate "\n---\n" data_context_parts
      let template :=
        (env.summaryTemplates.lookup template_key).getD env.defaultSummaryTemplate
      let prompt := template user_query data_context_string
      match env.generate (pyOrStr modelName env.summaryModelName) prompt with
      | Except.error e =>
        ("An error occurred while generating the summary: " ++ e, none)
      | Except.ok t =>
        if t == "" then
          ("The AI failed to generate a summary based on the data.", some sources_list)
        else
          (pyStrip t, some sources_list)

/-- Behaviour of an open SQLite connection under `pd.read_sql_query`: query
text to a result frame, or a raised database error. -/
abbrev Conn := String → Except String DataFrame

/-- Embeds `db_handler.get_db_connection`.  `dbPath` is `config.DB_PATH`
(`none` models a misconfigured non-string path), `pathExists` whether the
database file exists, and `connect` the outcome of `sqlite3.connect` (`none`
models a raised connection error). -/
def get_db_connection (dbPath : Option String) (pathExists : Bool)
    (connect : Option Conn) : Option Conn :=
  if !(strTruthy dbPath) then none
  else if !pathExists then none
  else connect

/-- Embeds `db_handler.execute_sql_query`: reject falsy or non-SELECT query
text, reject a failed connection, run the query, and turn any raised execution
error into the empty frame.  The function is total: every failure is returned
as a value, never raised. -/
def execute_sql_query (dbPath : Option String) (pathExists : Bool)
    (connect : Option Conn) (sql_query : Option String) : DataFrame :=
  if !(strTruthy sql_query) || !(pyInStr "SELECT" (pyUpper (sql_query.getD ""))) then
    DataFrame.emptyDf
  else
    match get_db_connection dbPath pathExists connect with
    | none => DataFrame.emptyDf
    | some conn =>
      match conn (sql_query.getD "") with
      | Except.ok df => df
      | Except.error _ => DataFrame.emptyDf

/-- Embeds `core_logic.process_query`.  The source calls
`generate_sql_from_query(user_query)` and
`generate_summary_from_data(user_query, retrieved_data_df)` with no further
arguments, so `api_key` takes its Python default `None` and `template_key` its
default value "Thematic Analysis": no credential or analysis mode is threaded
through.  In the branch on the summarizer result, the source first tests
`summary is None and sources is None`; as written the summarizer never returns
`None` for the summary text, so only the sources component decides the
branch. -/
def process_query (env : GenAiEnv) (dbPath : Option String) (pathExists : Bool)
    (connect : Option Conn) (user_query : String) :
    String × List Row × Option String :=
  let sql_query := generate_sql_from_query env user_query none none
  if !(strTruthy sql_query) then
    ("Error: Could not generate the database query.", [], none)
  else
    let retrieved_data_df := execute_sql_query dbPath pathExists connect sql_query
    if retrieved_data_df.isEmptyDf then
      ("No data found matching your query.", [], sql_query)
    else
      match generate_summary_from_data env user_query retrieved_data_df
          "Thematic Analysis" none none with
      | (summary, none) => (summary, [], sql_query)
      | (summary, some sources) => (summary, sources, sql_query)

/-- Embeds `smart_split` (database_init.py lines 41 to 52, and identically
preprocess/preprocess_csv_to_sql.py lines 13 to 24): a NaN cell gives the empty
list; otherwise rewrite the one malformed quoted value, split on commas, strip
each item, and drop empty items. -/
def smart_split (text : Option String) : List String :=
  match text with
  | none => []
  | some t =>
    let t := pyReplace t "\"Dental, Vision, and Hearing Care [5]\""
      "Dental Vision and Hearing Care [5]"
    let items := (pySplit t ',').map pyStrip
    items.filter (fun item => !(item == ""))

/-- Pandas `.str.split(sep)` on one cell: a NaN cell stays NaN; a string cell is
split on every separator with no trimming and no dropping of empty items. -/
def pdStrSplit (cell : Option String) (sep : Char) : Option (List String) :=
  cell.map (fun s => pySplit s sep)

/-- Pandas `explode` on a list column followed by the `.notna()` filter
(database_init.py lines 88 to 93): a NaN cell or an empty list contributes no
link rows; a non-empty list contributes one row per item. -/
def explodeNotna : Option (List String) → List String
  | none => []
  | some l => l

/-- One row of the source spreadsheet, restricted to the multi-valued columns
that feed the link tables (`none` models a NaN cell).  The single-valued
columns that populate the main `peoplesay` table play no part in the link-table
construction and are not modelled. -/
structure SourceRow where
  /-- Column "Subtopics [web]". -/
  subtopicsCell : Option String
  /-- Column "Topics [web]". -/
  topicsCell : Option String
  /-- Column "Common Topics [web]". -/
  commonTopicsCell : Option String
  /-- Column "Data Type [web]". -/
  dataTypeCell : Option String
  /-- Column "Insurance [web]". -/
  insuranceCell : Option String
  /-- Column "Race/Ethnicity [web]". -/
  raceEthnicityCell : Option String
deriving DecidableEq

/-- The link table built from one multi-valued list column (database_init.py
lines 80 to 93): entry ids are assigned densely from 1 in source order, the
list column is exploded, and NaN rows are dropped. -/
def auxTableRows (listOf : SourceRow → Option (List String))
    (srcRows : List SourceRow) : List (Nat × String) :=
  ((List.enumFrom 1 srcRows).map
    (fun p => (explodeNotna (listOf p.2)).map (fun v => (p.1, v)))).flatten

/-- The `subtopics_table` link rows: the subtopic column goes through
`smart_split`, which always yields a list (never NaN). -/
def subtopics_table (srcRows : List SourceRow) : List (Nat × String) :=
  auxTableRows (fun r => some (smart_split r.subtopicsCell)) srcRows

/-- The `topics_table` link rows: plain comma split. -/
def topics_table (srcRows : List SourceRow) : List (Nat × String) :=
  auxTableRows (fun r => pdStrSplit r.topicsCell ',') srcRows

/-- The `common_topics_table` link rows: plain comma split. -/
def common_topics_table (srcRows : List SourceRow) : List (Nat × String) :=
  auxTableRows (fun r => pdStrSplit r.commonTopicsCell ',') srcRows

/-- The `data_type_table` link rows: plain comma split. -/
def data_type_table (srcRows : List SourceRow) : List (Nat × String) :=
  auxTableRows (fun r => pdStrSplit r.dataTypeCell ',') srcRows

/-- The `insurance_table` link rows: plain comma split. -/
def insurance_table (srcRows : List SourceRow) : List (Nat × String) :=
  auxTableRows (fun r => pdStrSplit r.insuranceCell ',') srcRows

/-- The `race_ethnicity_table` link rows: plain comma split. -/
def race_ethnicity_table (srcRows : List SourceRow) : List (Nat × String) :=
  auxTableRows (fun r => pdStrSplit r.raceEthnicityCell ',') srcRows

/-! Concrete environments and frames used to instantiate the theorems. -/

/-- A deterministic oracle environment whose generation call always yields the
given response; the credential probe accepts every key. -/
def stubEnv (resp : Except String String) : GenAiEnv :=
  { verifyKey := fun _ => true
    googleApiKey := none
    sqlModelName := "m-sql"
    summaryModelName := "m-sum"
    generate := fun _ _ => resp
    sqlPromptTemplate := fun q => q
    summaryTemplates := []
    defaultSummaryTemplate := fun _ d => d }

/-- A one-row result frame carrying the three required columns. -/
def oneRowDf : DataFrame :=
  ⟨["data_unit", "data_unit_title", "participant_name"],
   [[("data_unit", "I like my doctor"), ("data_unit_title", "P1-1"),
     ("participant_name", "Alice")]]⟩

/-- A probe frame used to observe that a query reached the store. -/
def dropProbeDf : DataFrame :=
  ⟨["entry_id"], [[("entry_id", "1")]]⟩

/-- A connection whose every query succeeds with `dropProbeDf`. -/
def connOk : Conn := fun _ => Except.ok dropProbeDf

/-- A connection whose every query raises a database error. -/
def connErr : Conn := fun _ => Except.error "database is locked"

/-- The source row of the subtopic round-trip scenario. -/
def subtopicSourceRow : SourceRow :=
  ⟨some "Access to Care [5], Ageism [7]", none, none, none, none, none⟩

/-- A source row whose five plain-split columns all hold "A, B". -/
def sourceRowAB : SourceRow :=
  ⟨none, some "A, B", some "A, B", some "A, B", some "A, B", some "A, B"⟩

/-- A source row whose topics column holds "A,,B" (an empty middle item). -/
def sourceRowEmptyItem : SourceRow :=
  ⟨none, some "A,,B", none, none, none, none⟩

/-- C1.  The claim says the pipeline entry point accepts a question, an
analysis mode, and a credential, and threads the credential to both oracle
calls and the mode to the Summarizer.  The source `process_query` accepts only
the question: it calls `generate_sql_from_query(user_query)` with `api_key`
defaulting to `None`, which returns `None` before any oracle call, and it never
forwards a mode.  Consequently, for every oracle environment, store state and
question, the pipeline returns the constant could-not-generate error triple:
nothing is threaded anywhere.  (The caller in app.py even passes
`template_key=` and `api_key=` keyword arguments that `process_query` does not
accept, which raises a `TypeError`.) -/
theorem spec_C1_entry_point_ignores_credential_and_mode
    (env : GenAiEnv) (dbPath : Option String) (pathExists : Bool)
    (connect : Option Conn) (user_query : String) :
    process_query env dbPath pathExists connect user_query =
      ("Error: Could not generate the database query.", [], none) := by
  rfl

/-- C6.  The claim says that when query synthesis succeeds and the Executor
returns an empty ResultSet, the pipeline returns the triple
("No data found matching your query.", [], the generated query).  In the source
the synthesis step can never succeed through `process_query` (no credential is
passed, so `generate_sql_from_query` returns `None` unconditionally): even with
an oracle that answers a valid SELECT query and a store that executes it to
zero rows, the pipeline returns the could-not-generate error triple, and the
no-data branch at core_logic.py lines 48 to 53 is unreachable. -/
theorem spec_C6_nodata_branch_unreachable :
    process_query (stubEnv (Except.ok "SELECT * FROM peoplesay"))
      (some "peoplesay.db") true (some (fun _ => Except.ok ⟨["data_unit"], []⟩))
      "What do older adults say about dental care access?" =
      ("Error: Could not generate the database query.", [], none) := by
  rfl

/-- C8.  Ingesting a source row whose subtopic cell holds
"Access to Care [5], Ageism [7]" yields exactly two subtopic link-table rows
for that entity, "Access to Care [5]" and "Ageism [7]", each stripped of
surrounding whitespace. -/
theorem spec_C8_subtopic_roundtrip :
    smart_split (some "Access to Care [5], Ageism [7]") =
      ["Access to Care [5]", "Ageism [7]"]
  ∧ subtopics_table [subtopicSourceRow] =
      [(1, "Access to Care [5]"), (1, "Ageism [7]")] := by
  decide

/-- C9.  For every multi-valued column other than subtopics (topics, common
topics, data type, insurance, race/ethnicity), ingestion splits the cell on
commas without trimming and without dropping empty items: a cell "A, B" stores
the second link row as " B" with its leading space, and a cell "A,,B" keeps the
empty middle item. -/
theorem spec_C9_untrimmed_comma_split :
    topics_table [sourceRowAB] = [(1, "A"), (1, " B")]
  ∧ common_topics_table [sourceRowAB] = [(1, "A"), (1, " B")]
  ∧ data_type_table [sourceRowAB] = [(1, "A"), (1, " B")]
  ∧ insurance_table [sourceRowAB] = [(1, "A"), (1, " B")]
  ∧ race_ethnicity_table [sourceRowAB] = [(1, "A"), (1, " B")]
  ∧ topics_table [sourceRowEmptyItem] = [(1, "A"), (1, ""), (1, "B")] := by
  decide

/-- C3.  For every empty ResultSet, once the credential gate has passed (the
source checks the API key before looking at the rows), `summarize` returns
exactly the fixed message "No relevant data found to summarize." together with
the empty grounding list — for every oracle environment, mode and model, so no
error outcome is possible on this path. -/
theorem spec_C3_empty_resultset_fixed_message
    (env : GenAiEnv) (user_query template_key : String) (cols : List String)
    (apiKey modelName : Option String)
    (hkey : strTruthy apiKey = true)
    (hconf : configure_genai env apiKey = true) :
    generate_summary_from_data env user_query ⟨cols, []⟩ template_key apiKey
      modelName = ("No relevant data found to summarize.", some []) := by
  simp [generate_summary_from_data, hkey, hconf, DataFrame.isEmptyDf]

/-- Witness for C3: a concrete empty frame with a valid key hits the fixed
message regardless of the oracle. -/
theorem spec_C3_empty_resultset_fixed_message_witness :
    generate_summary_from_data (stubEnv (Except.error "unreachable")) "q"
      ⟨["data_unit"], []⟩ "Thematic Analysis" (some "k") none =
      ("No relevant data found to summarize.", some []) :=
  spec_C3_empty_resultset_fixed_message (stubEnv (Except.error "unreachable"))
    "q" "Thematic Analysis" ["data_unit"] (some "k") none (by decide) (by decide)

/-- C5.  The Query Executor never raises to its caller: it is a total function
into result frames, and on every failure input — falsy query text, a query
without a SELECT token, a failed connection (missing store file, misconfigured
path or connection error), or a raised execution error — it returns the empty
frame `pd.DataFrame()` rather than propagating the error. -/
theorem spec_C5_executor_never_raises
    (dbPath : Option String) (pathExists : Bool) (connect : Option Conn)
    (sql_query : Option String) :
    (strTruthy sql_query = false →
      execute_sql_query dbPath pathExists connect sql_query = DataFrame.emptyDf)
  ∧ (pyInStr "SELECT" (pyUpper (sql_query.getD "")) = false →
      execute_sql_query dbPath pathExists connect sql_query = DataFrame.emptyDf)
  ∧ (get_db_connection dbPath pathExists connect = none →
      execute_sql_query dbPath pathExists connect sql_query = DataFrame.emptyDf)
  ∧ (∀ (conn : Conn) (e : String),
      get_db_connection dbPath pathExists connect = some conn →
      conn (sql_query.getD "") = Except.error e →
      execute_sql_query dbPath pathExists connect sql_query = DataFrame.emptyDf) := by
  refine ⟨?_, ?_, ?_, ?_⟩
  · intro h
    simp [execute_sql_query, h]
  · intro h
    simp [execute_sql_query, h]
  · intro h
    simp [execute_sql_query, h]
  · intro conn e hconn herr
    simp [execute_sql_query, hconn, herr]

/-- Witness for C5: the four failure inputs — a `None` query, a non-SELECT
query, a missing store file, and a connection whose execution raises — all
return the empty frame. -/
theorem spec_C5_executor_never_raises_witness :
    execute_sql_query (some "peoplesay.db") true (some connOk) none =
      DataFrame.emptyDf
  ∧ execute_sql_query (some "peoplesay.db") true (some connOk)
      (some "DROP TABLE peoplesay") = DataFrame.emptyDf
  ∧ execute_sql_query (some "peoplesay.db") false (some connOk)
      (some "SELECT 1") = DataFrame.emptyDf
  ∧ execute_sql_query (some "peoplesay.db") true (some connErr)
      (some "SELECT 1") = DataFrame.emptyDf := by
  refine ⟨?_, ?_, ?_, ?_⟩
  · exact (spec_C5_executor_never_raises (some "peoplesay.db") true
      (some connOk) none).1 (by decide)
  · exact (spec_C5_executor_never_raises (some "peoplesay.db") true
      (some connOk) (some "DROP TABLE peoplesay")).2.1 (by decide)
  · exact (spec_C5_executor_never_raises (some "peoplesay.db") false
      (some connOk) (some "SELECT 1")).2.2.1 (by rfl)
  · exact (spec_C5_executor_never_raises (some "peoplesay.db") true
      (some connErr) (some "SELECT 1")).2.2.2 connErr "database is locked"
      (by rfl) (by rfl)

/-- Mapping `to_dict` over rows is the identity on the row model. -/
theorem map_to_dict_eq (l : List Row) : l.map Row.to_dict = l := by
  induction l with
  | nil => rfl
  | cons a t ih => simp [Row.to_dict, ih]

/-- C2.  For every non-empty result frame carrying the three required columns
(data_unit, data_unit_title, participant_name), and for every mode, model and
oracle whose generation call succeeds (with any text, empty or not),
`summarize` returns a grounding list that is exactly the input rows — one
entry per row, in the input order (each row passed through `to_dict`, the
identity on the row model). -/
theorem spec_C2_grounding_set_matches_rows
    (env : GenAiEnv) (user_query template_key : String) (df : DataFrame)
    (apiKey modelName : Option String) (t : String)
    (hkey : strTruthy apiKey = true)
    (hconf : configure_genai env apiKey = true)
    (hrows : df.rows.isEmpty = false)
    (hcols : required_columns.all (fun c => df.cols.contains c) = true)
    (horacle : ∀ m p, env.generate m p = Except.ok t) :
    (generate_summary_from_data env user_query df template_key apiKey
      modelName).2 = some df.rows := by
  obtain ⟨cols, rows⟩ := df
  simp only [DataFrame.isEmptyDf] at hrows
  cases rows with
  | nil => simp at hrows
  | cons r rs =>
    have hmem : ∀ x ∈ required_columns, x ∈ cols := by
      intro x hx
      have h2 := List.all_eq_true.mp hcols x hx
      simpa using h2
    simp [generate_summary_from_data, hkey, hconf, horacle, DataFrame.isEmptyDf]
    rw [if_neg (by push_neg; exact hmem)]
    split <;> simp [map_to_dict_eq, Row.to_dict]

/-- Witness for C2: a concrete one-row frame with a valid key and an oracle
that answers a summary yields exactly that row as the grounding list. -/
theorem spec_C2_grounding_set_matches_rows_witness :
    (generate_summary_from_data (stubEnv (Except.ok "A grounded summary."))
      "q" oneRowDf "Thematic Analysis" (some "k") none).2 =
      some oneRowDf.rows :=
  spec_C2_grounding_set_matches_rows (stubEnv (Except.ok "A grounded summary."))
    "q" "Thematic Analysis" oneRowDf (some "k") none "A grounded summary."
    (by decide) (by decide) (by decide) (by decide) (fun _ _ => rfl)

/-- C7.  When the rows are valid (non-empty, with the three required columns)
and the credential gate passes, an oracle call that succeeds but returns empty
text makes `summarize` return the fixed failure message "The AI failed to
generate a summary based on the data." paired with the grounding list computed
from the rows: grounding survives even though text generation failed. -/
theorem spec_C7_empty_oracle_text_keeps_grounding
    (env : GenAiEnv) (user_query template_key : String) (df : DataFrame)
    (apiKey modelName : Option String)
    (hkey : strTruthy apiKey = true)
    (hconf : configure_genai env apiKey = true)
    (hrows : df.rows.isEmpty = false)
    (hcols : required_columns.all (fun c => df.cols.contains c) = true)
    (horacle : ∀ m p, env.generate m p = Except.ok "") :
    generate_summary_from_data env user_query df template_key apiKey
      modelName =
      ("The AI failed to generate a summary based on the data.", some df.rows) := by
  obtain ⟨cols, rows⟩ := df
  simp only [DataFrame.isEmptyDf] at hrows
  cases rows with
  | nil => simp at hrows
  | cons r rs =>
    have hmem : ∀ x ∈ required_columns, x ∈ cols := by
      intro x hx
      have h2 := List.all_eq_true.mp hcols x hx
      simpa using h2
    simp [generate_summary_from_data, hkey, hconf, horacle, DataFrame.isEmptyDf]
    rw [if_neg (by push_neg; exact hmem)]
    simp [map_to_dict_eq, Row.to_dict]

/-- Witness for C7: a concrete one-row frame with a valid key and an oracle
answering empty text yields the fixed failure message with the row kept. -/
theorem spec_C7_empty_oracle_text_keeps_grounding_witness :
    generate_summary_from_data (stubEnv (Except.ok "")) "q" oneRowDf
      "Thematic Analysis" (some "k") none =
      ("The AI failed to generate a summary based on the data.",
        some oneRowDf.rows) :=
  spec_C7_empty_oracle_text_keeps_grounding (stubEnv (Except.ok "")) "q"
    "Thematic Analysis" oneRowDf (some "k") none
    (by decide) (by decide) (by decide) (by decide) (fun _ _ => rfl)

/-- C4.  Every structured query the Synthesizer returns contains a
case-insensitive SELECT token (first conjunct: any returned query passes the
uppercase substring check), and whenever the post-processed oracle text lacks
the token, `generate_sql_from_query` returns the failure value `none` (second
conjunct). -/
theorem spec_C4_select_gate :
    (∀ (env : GenAiEnv) (user_query : String) (apiKey modelName : Option String)
        (q : String),
        generate_sql_from_query env user_query apiKey modelName = some q →
        pyInStr "SELECT" (pyUpper q) = true)
  ∧ (∀ (env : GenAiEnv) (user_query : String) (apiKey modelName : Option String)
        (t : String),
        env.generate (pyOrStr modelName env.sqlModelName)
          (env.sqlPromptTemplate user_query) = Except.ok t →
        pyInStr "SELECT" (pyUpper (postProcessSql t)) = false →
        generate_sql_from_query env user_query apiKey modelName = none) := by
  constructor
  · intro env user_query apiKey modelName q h
    simp only [generate_sql_from_query] at h
    repeat' split at h
    all_goals simp_all
  · intro env user_query apiKey modelName t hok hno
    simp only [generate_sql_from_query]
    repeat' split
    all_goals simp_all

/-- Witness for C4: an oracle answering a fenced SELECT query yields a query
passing the SELECT check, and an oracle answering prose without SELECT makes
the Synthesizer fail. -/
theorem spec_C4_select_gate_witness :
    pyInStr "SELECT" (pyUpper "SELECT * FROM peoplesay") = true
  ∧ generate_sql_from_query (stubEnv (Except.ok "I cannot answer that")) "q"
      (some "k") none = none := by
  constructor
  · exact spec_C4_select_gate.1
      (stubEnv (Except.ok "```sql\nSELECT * FROM peoplesay\n```")) "q"
      (some "k") none "SELECT * FROM peoplesay" (by decide)
  · exact spec_C4_select_gate.2 (stubEnv (Except.ok "I cannot answer that"))
      "q" (some "k") none "I cannot answer that" (by rfl) (by decide)

/-- C10.  Both SELECT gates are plain substring checks on the upper-cased
text.  First conjunct: any non-empty query containing the token reaches the
store and its result is returned.  Second conjunct: any successful oracle text
whose post-processed form contains the token is returned by the Synthesizer
verbatim.  Third conjunct: a mutation statement that merely mentions
"select" in a trailing comment passes the check, so neither gate enforces
read-only queries. -/
theorem spec_C10_substring_gates :
    (∀ (dbPath : Option String) (pathExists : Bool) (connect : Option Conn)
        (conn : Conn) (s : String) (df : DataFrame),
        strTruthy (some s) = true →
        pyInStr "SELECT" (pyUpper s) = true →
        get_db_connection dbPath pathExists connect = some conn →
        conn s = Except.ok df →
        execute_sql_query dbPath pathExists connect (some s) = df)
  ∧ (∀ (env : GenAiEnv) (user_query : String) (apiKey modelName : Option String)
        (t : String),
        strTruthy apiKey = true →
        configure_genai env apiKey = true →
        (user_query == "") = false →
        env.generate (pyOrStr modelName env.sqlModelName)
          (env.sqlPromptTemplate user_query) = Except.ok t →
        (t == "") = false →
        pyInStr "SELECT" (pyUpper (postProcessSql t)) = true →
        generate_sql_from_query env user_query apiKey modelName =
          some (postProcessSql t))
  ∧ pyInStr "SELECT" (pyUpper "DROP TABLE peoplesay; -- select") = true := by
  refine ⟨?_, ?_, ?_⟩
  · intro dbPath pathExists connect conn s df hs hsel hconn hok
    simp [execute_sql_query, hs, hsel, hconn, hok]
  · intro env user_query apiKey modelName t hkey hconf hq hok ht hsel
    simp [generate_sql_from_query, hkey, hconf, hq, hok, ht, hsel]
  · decide

/-- Witness for C10: the mutation statement "DROP TABLE peoplesay; -- select"
is returned by the Synthesizer and executed by the Executor against the
store. -/
theorem spec_C10_substring_gates_witness :
    execute_sql_query (some "peoplesay.db") true (some connOk)
      (some "DROP TABLE peoplesay; -- select") = dropProbeDf
  ∧ generate_sql_from_query
      (stubEnv (Except.ok "DROP TABLE peoplesay; -- select")) "q" (some "k")
      none = some (postProcessSql "DROP TABLE peoplesay; -- select") := by
  constructor
  · exact spec_C10_substring_gates.1 (some "peoplesay.db") true (some connOk)
      connOk "DROP TABLE peoplesay; -- select" dropProbeDf (by decide)
      (by decide) (by rfl) (by rfl)
  · exact spec_C10_substring_gates.2.1
      (stubEnv (Except.ok "DROP TABLE peoplesay; -- select")) "q" (some "k")
      none "DROP TABLE peoplesay; -- select" (by decide) (by decide)
      (by decide) (by rfl) (by decide) (by decide)

end PeopleSay
